import Mathlib

/-!
Verification of the vulkan-playground repository.

The repository holds four successive snapshots of a Vulkan tutorial program:
  * version 1: `src/unnamed/part_001` (instance creation only),
  * version 2: `src/src/main.cpp`, second class (adds validation layers and
    physical-device selection),
  * version 3: `src/src/main.cpp`, first class (adds surface, logical device,
    swapchain, image views, render pass, graphics pipeline),
  * version 4: `src/unnamed/part_000` (final: framebuffers, command recording,
    frame synchronization, vertex/index buffers, per-frame uniform buffers).

The development below shallowly embeds the data and control flow of those
files: the per-frame rendering state machine of the final version is modelled
as a function from the application state and the results returned by the
Vulkan driver to the sequence of host-side steps the frame performs.
-/

namespace VkPlayground

/-- Result codes returned by `vkAcquireNextImageKHR` / `vkQueuePresentKHR`
as distinguished by the code of `Application::frame`
(src/unnamed/part_000, lines 1354-1428). `errorOther` stands for any result
other than the three the code names. -/
inductive VkResult where
  | success
  | suboptimalKHR
  | errorOutOfDateKHR
  | errorOther
  deriving DecidableEq, Repr

/-- `Application::MAX_FRAMES_IN_FLIGHT` (src/unnamed/part_000, line 105). -/
def MAX_FRAMES_IN_FLIGHT : Nat := 2

/-- `currentFrame` is a C++ `uint32_t`; incrementing wraps modulo `2 ^ 32`. -/
def UINT32_MOD : Nat := 2 ^ 32

/-- The per-slot semaphores of `VkFrameRenderResources`
(src/unnamed/part_000, lines 162-170), identified by their frame slot. -/
inductive Semaphore where
  | imageAvailable (slot : Nat)
  | renderFinished (slot : Nat)
  deriving DecidableEq, Repr

/-- The frame slot a semaphore belongs to. -/
def Semaphore.slot : Semaphore → Nat
  | Semaphore.imageAvailable s => s
  | Semaphore.renderFinished s => s

/-- The runtime errors `Application::frame` can raise. -/
inductive FrameError where
  | acquireFailed
  | presentFailed
  deriving DecidableEq, Repr

/-- One host-side step of `Application::frame`
(src/unnamed/part_000, lines 1354-1428). -/
inductive FrameStep where
  | waitFence (slot : Nat)
  | acquireImage (signal : Semaphore)
  | recreateSwapchain
  | raiseError (e : FrameError)
  | updateUniform (slot : Nat)
  | resetCommandBuffer (slot : Nat)
  | recordCommandBuffer (slot : Nat) (imageIndex : Nat)
  | resetFence (slot : Nat)
  | queueSubmit (waitSems : List Semaphore) (signalSems : List Semaphore) (fence : Nat)
  | present (waitSems : List Semaphore) (imageIndex : Nat)
  deriving DecidableEq, Repr

/-- The frame slots a step touches (the slot of every semaphore, fence,
command buffer or uniform buffer it uses). -/
def FrameStep.slots : FrameStep → List Nat
  | FrameStep.waitFence s => [s]
  | FrameStep.acquireImage sem => [sem.slot]
  | FrameStep.recreateSwapchain => []
  | FrameStep.raiseError _ => []
  | FrameStep.updateUniform s => [s]
  | FrameStep.resetCommandBuffer s => [s]
  | FrameStep.recordCommandBuffer s _ => [s]
  | FrameStep.resetFence s => [s]
  | FrameStep.queueSubmit w g f => w.map Semaphore.slot ++ g.map Semaphore.slot ++ [f]
  | FrameStep.present w _ => w.map Semaphore.slot

/-- Steps that block the host on a synchronization primitive:
`vkWaitForFences` in the frame itself, and the `vkDeviceWaitIdle` /
`glfwWaitEvents` calls inside `recreateVulkanSwapchain`. -/
def FrameStep.isHostBlockingSync : FrameStep → Bool
  | FrameStep.waitFence _ => true
  | FrameStep.recreateSwapchain => true
  | _ => false

/-- The results the environment (the Vulkan driver) returns to one call of
`Application::frame`: the result of `vkAcquireNextImageKHR`, the image index
it writes, and the result of `vkQueuePresentKHR`. -/
structure FrameEnv where
  acquireResult : VkResult
  imageIndex : Nat
  presentResult : VkResult
  deriving DecidableEq, Repr

/-- The application state the frame loop mutates. -/
structure AppState where
  currentFrame : Nat
  deriving DecidableEq, Repr

/-- `Application::frame` (src/unnamed/part_000, lines 1354-1428), as the new
application state together with the ordered trace of host steps performed.
The step order is exactly the statement order of the source. -/
def frame (st : AppState) (env : FrameEnv) : AppState × List FrameStep :=
  let frameIndex := st.currentFrame % MAX_FRAMES_IN_FLIGHT
  let st' : AppState := { currentFrame := (st.currentFrame + 1) % UINT32_MOD }
  let steps0 : List FrameStep :=
    [FrameStep.waitFence frameIndex,
     FrameStep.acquireImage (Semaphore.imageAvailable frameIndex)]
  if env.acquireResult = VkResult.errorOutOfDateKHR then
    (st', steps0 ++ [FrameStep.recreateSwapchain])
  else if env.acquireResult ≠ VkResult.success ∧
      env.acquireResult ≠ VkResult.suboptimalKHR then
    (st', steps0 ++ [FrameStep.raiseError FrameError.acquireFailed])
  else
    let submitSteps : List FrameStep :=
      [FrameStep.updateUniform frameIndex,
       FrameStep.resetCommandBuffer frameIndex,
       FrameStep.recordCommandBuffer frameIndex env.imageIndex,
       FrameStep.resetFence frameIndex,
       FrameStep.queueSubmit [Semaphore.imageAvailable frameIndex]
         [Semaphore.renderFinished frameIndex] frameIndex,
       FrameStep.present [Semaphore.renderFinished frameIndex] env.imageIndex]
    let presentSteps : List FrameStep :=
      if env.presentResult = VkResult.errorOutOfDateKHR ∨
          env.presentResult = VkResult.suboptimalKHR then
        [FrameStep.recreateSwapchain]
      else if env.presentResult ≠ VkResult.success then
        [FrameStep.raiseError FrameError.presentFailed]
      else []
    (st', steps0 ++ submitSteps ++ presentSteps)

/-- Whether every `resetFence` in a trace is immediately followed by a
`queueSubmit` whose fence argument is the fence just reset. -/
def resetsImmediatelyPrecedeSubmit : List FrameStep → Bool
  | [] => true
  | FrameStep.resetFence s :: rest =>
    match rest with
    | FrameStep.queueSubmit _ _ f :: _ =>
      (f == s) && resetsImmediatelyPrecedeSubmit rest
    | _ => false
  | _ :: rest => resetsImmediatelyPrecedeSubmit rest

/-- Host-visible signaled state of the in-flight fence of slot `s` after a
trace runs, starting from signaled state `b`: `vkResetFences` unsignals it and
a queue submission carrying it (re-)signals it on completion; no other step
touches it. -/
def fenceAfter (b : Bool) (tr : List FrameStep) (s : Nat) : Bool :=
  tr.foldl (fun acc step =>
    match step with
    | FrameStep.resetFence s' => if s' = s then false else acc
    | FrameStep.queueSubmit _ _ f => if f = s then true else acc
    | _ => acc) b

/-- C1: for every iteration of the frame loop of the final version in which
acquisition succeeds (or reports a suboptimal swapchain) and presentation
succeeds, the host steps of `Application::frame` are exactly, in order:
wait on the slot's in-flight fence, acquire a swapchain image, update the
slot's uniform buffer, reset then record the slot's command buffer, reset the
fence, submit to the graphics queue, and present the acquired image. The
trace equality fixes the total order, and the steps are sequential host
calls, so no step runs before the preceding one completes on the host. -/
theorem frame_steps_in_order (st : AppState) (env : FrameEnv)
    (hacq : env.acquireResult = VkResult.success ∨
      env.acquireResult = VkResult.suboptimalKHR)
    (hpres : env.presentResult = VkResult.success) :
    (frame st env).2 =
      [FrameStep.waitFence (st.currentFrame % MAX_FRAMES_IN_FLIGHT),
       FrameStep.acquireImage
         (Semaphore.imageAvailable (st.currentFrame % MAX_FRAMES_IN_FLIGHT)),
       FrameStep.updateUniform (st.currentFrame % MAX_FRAMES_IN_FLIGHT),
       FrameStep.resetCommandBuffer (st.currentFrame % MAX_FRAMES_IN_FLIGHT),
       FrameStep.recordCommandBuffer (st.currentFrame % MAX_FRAMES_IN_FLIGHT)
         env.imageIndex,
       FrameStep.resetFence (st.currentFrame % MAX_FRAMES_IN_FLIGHT),
       FrameStep.queueSubmit
         [Semaphore.imageAvailable (st.currentFrame % MAX_FRAMES_IN_FLIGHT)]
         [Semaphore.renderFinished (st.currentFrame % MAX_FRAMES_IN_FLIGHT)]
         (st.currentFrame % MAX_FRAMES_IN_FLIGHT),
       FrameStep.present
         [Semaphore.renderFinished (st.currentFrame % MAX_FRAMES_IN_FLIGHT)]
         env.imageIndex] := by
  obtain ⟨a, i, p⟩ := env
  rcases hacq with h | h <;> subst h <;>
    simp_all [frame]

/-- Witness for `frame_steps_in_order` at a concrete state and environment. -/
theorem frame_steps_in_order_witness :
    (frame { currentFrame := 0 }
        { acquireResult := VkResult.success, imageIndex := 1,
          presentResult := VkResult.success }).2 =
      [FrameStep.waitFence 0,
       FrameStep.acquireImage (Semaphore.imageAvailable 0),
       FrameStep.updateUniform 0,
       FrameStep.resetCommandBuffer 0,
       FrameStep.recordCommandBuffer 0 1,
       FrameStep.resetFence 0,
       FrameStep.queueSubmit [Semaphore.imageAvailable 0]
         [Semaphore.renderFinished 0] 0,
       FrameStep.present [Semaphore.renderFinished 0] 1] :=
  frame_steps_in_order { currentFrame := 0 }
    { acquireResult := VkResult.success, imageIndex := 1,
      presentResult := VkResult.success } (Or.inl rfl) rfl

/-- C2: in the final version the swapchain is recreated exactly when
acquisition or presentation reports it invalid: if `vkAcquireNextImageKHR`
returns `VK_ERROR_OUT_OF_DATE_KHR` the swapchain is recreated and the frame
is abandoned with no submission and no presentation; if it returns any result
other than `VK_SUCCESS`, `VK_SUBOPTIMAL_KHR` (and other than the already
handled `VK_ERROR_OUT_OF_DATE_KHR`) an error is raised; and if
`vkQueuePresentKHR` returns `VK_ERROR_OUT_OF_DATE_KHR` or `VK_SUBOPTIMAL_KHR`
the swapchain is recreated after that frame's presentation. -/
theorem frame_swapchain_invalidation (st : AppState) (env : FrameEnv) :
    (env.acquireResult = VkResult.errorOutOfDateKHR →
      (frame st env).2 =
        [FrameStep.waitFence (st.currentFrame % MAX_FRAMES_IN_FLIGHT),
         FrameStep.acquireImage
           (Semaphore.imageAvailable (st.currentFrame % MAX_FRAMES_IN_FLIGHT)),
         FrameStep.recreateSwapchain] ∧
      (∀ w g f, FrameStep.queueSubmit w g f ∉ (frame st env).2) ∧
      (∀ w i, FrameStep.present w i ∉ (frame st env).2)) ∧
    (env.acquireResult ≠ VkResult.success →
      env.acquireResult ≠ VkResult.suboptimalKHR →
      env.acquireResult ≠ VkResult.errorOutOfDateKHR →
      (frame st env).2 =
        [FrameStep.waitFence (st.currentFrame % MAX_FRAMES_IN_FLIGHT),
         FrameStep.acquireImage
           (Semaphore.imageAvailable (st.currentFrame % MAX_FRAMES_IN_FLIGHT)),
         FrameStep.raiseError FrameError.acquireFailed]) ∧
    ((env.acquireResult = VkResult.success ∨
        env.acquireResult = VkResult.suboptimalKHR) →
      (env.presentResult = VkResult.errorOutOfDateKHR ∨
        env.presentResult = VkResult.suboptimalKHR) →
      (frame st env).2 =
        [FrameStep.waitFence (st.currentFrame % MAX_FRAMES_IN_FLIGHT),
         FrameStep.acquireImage
           (Semaphore.imageAvailable (st.currentFrame % MAX_FRAMES_IN_FLIGHT)),
         FrameStep.updateUniform (st.currentFrame % MAX_FRAMES_IN_FLIGHT),
         FrameStep.resetCommandBuffer (st.currentFrame % MAX_FRAMES_IN_FLIGHT),
         FrameStep.recordCommandBuffer (st.currentFrame % MAX_FRAMES_IN_FLIGHT)
           env.imageIndex,
         FrameStep.resetFence (st.currentFrame % MAX_FRAMES_IN_FLIGHT),
         FrameStep.queueSubmit
           [Semaphore.imageAvailable (st.currentFrame % MAX_FRAMES_IN_FLIGHT)]
           [Semaphore.renderFinished (st.currentFrame % MAX_FRAMES_IN_FLIGHT)]
           (st.currentFrame % MAX_FRAMES_IN_FLIGHT),
         FrameStep.present
           [Semaphore.renderFinished (st.currentFrame % MAX_FRAMES_IN_FLIGHT)]
           env.imageIndex,
         FrameStep.recreateSwapchain]) := by
  obtain ⟨a, i, p⟩ := env
  refine ⟨?_, ?_, ?_⟩ <;> cases a <;> cases p <;> simp [frame]

/-- Witness for `frame_swapchain_invalidation`: the out-of-date acquisition
path at a concrete state recreates the swapchain and abandons the frame. -/
theorem frame_swapchain_invalidation_witness :
    (frame { currentFrame := 3 }
        { acquireResult := VkResult.errorOutOfDateKHR, imageIndex := 0,
          presentResult := VkResult.success }).2 =
      [FrameStep.waitFence 1,
       FrameStep.acquireImage (Semaphore.imageAvailable 1),
       FrameStep.recreateSwapchain] :=
  ((frame_swapchain_invalidation { currentFrame := 3 }
    { acquireResult := VkResult.errorOutOfDateKHR, imageIndex := 0,
      presentResult := VkResult.success }).1 rfl).1

/-- C3: every frame uses only the per-frame resource set indexed by
`currentFrame % MAX_FRAMES_IN_FLIGHT` with `MAX_FRAMES_IN_FLIGHT = 2`, so the
slot index is always below 2; the first host step of every frame is the
blocking wait on that slot's in-flight fence, before any other use of the
slot's resources; the only fence ever handed to a queue submission (the only
operation that signals it) is that same slot's fence; and `currentFrame`
advances by one (as a `uint32_t`) per frame. -/
theorem frame_bounded_by_frames_in_flight (st : AppState) (env : FrameEnv) :
    MAX_FRAMES_IN_FLIGHT = 2 ∧
    st.currentFrame % MAX_FRAMES_IN_FLIGHT < MAX_FRAMES_IN_FLIGHT ∧
    (frame st env).2.head? =
      some (FrameStep.waitFence (st.currentFrame % MAX_FRAMES_IN_FLIGHT)) ∧
    ((frame st env).2.all fun step =>
      step.slots.all fun x =>
        x == st.currentFrame % MAX_FRAMES_IN_FLIGHT) = true ∧
    ((frame st env).2.all fun step =>
      match step with
      | FrameStep.queueSubmit _ _ f =>
        f == st.currentFrame % MAX_FRAMES_IN_FLIGHT
      | _ => true) = true ∧
    (frame st env).1.currentFrame = (st.currentFrame + 1) % UINT32_MOD := by
  obtain ⟨a, i, p⟩ := env
  refine ⟨rfl, Nat.mod_lt _ (by norm_num [MAX_FRAMES_IN_FLIGHT]), ?_⟩
  cases a <;> cases p <;>
    simp [frame, FrameStep.slots, Semaphore.slot]

/-- C8: the in-flight fence is reset only immediately before a queue
submission that hands it that same fence (and hence will signal it); on the
`VK_ERROR_OUT_OF_DATE_KHR` acquisition path the function returns early having
performed neither a fence reset nor a submission, so the host-visible fence
state of every slot is unchanged and the next use of the slot does not wait
on a fence that would never be signaled. -/
theorem fence_reset_only_before_submit (st : AppState) (env : FrameEnv)
    (i : Nat) (pr : VkResult) (b : Bool) (s : Nat) :
    resetsImmediatelyPrecedeSubmit (frame st env).2 = true ∧
    (frame st { acquireResult := VkResult.errorOutOfDateKHR,
                imageIndex := i,
                presentResult := pr }).2 =
      [FrameStep.waitFence (st.currentFrame % MAX_FRAMES_IN_FLIGHT),
       FrameStep.acquireImage
         (Semaphore.imageAvailable (st.currentFrame % MAX_FRAMES_IN_FLIGHT)),
       FrameStep.recreateSwapchain] ∧
    fenceAfter b
      (frame st { acquireResult := VkResult.errorOutOfDateKHR,
                  imageIndex := i,
                  presentResult := pr }).2 s = b := by
  obtain ⟨a, j, p⟩ := env
  refine ⟨?_, ?_, ?_⟩
  · cases a <;> cases p <;>
      simp [frame, resetsImmediatelyPrecedeSubmit]
  · simp [frame]
  · simp [frame, fenceAfter]

/-- C4: on every frame that is not abandoned at acquisition, acquisition
signals the slot's image-available semaphore; the (unique) queue submission
waits on exactly that image-available semaphore and signals exactly that
slot's render-finished semaphore and in-flight fence; the (unique)
presentation waits on exactly that render-finished semaphore; and when
presentation succeeds (so the swapchain is not recreated) the only host-side
blocking synchronization in the frame is the wait on that slot's in-flight
fence. -/
theorem frame_semaphore_discipline (st : AppState) (env : FrameEnv)
    (hacq : env.acquireResult = VkResult.success ∨
      env.acquireResult = VkResult.suboptimalKHR) :
    FrameStep.acquireImage
        (Semaphore.imageAvailable (st.currentFrame % MAX_FRAMES_IN_FLIGHT)) ∈
      (frame st env).2 ∧
    FrameStep.queueSubmit
        [Semaphore.imageAvailable (st.currentFrame % MAX_FRAMES_IN_FLIGHT)]
        [Semaphore.renderFinished (st.currentFrame % MAX_FRAMES_IN_FLIGHT)]
        (st.currentFrame % MAX_FRAMES_IN_FLIGHT) ∈ (frame st env).2 ∧
    FrameStep.present
        [Semaphore.renderFinished (st.currentFrame % MAX_FRAMES_IN_FLIGHT)]
        env.imageIndex ∈ (frame st env).2 ∧
    (∀ w g f, FrameStep.queueSubmit w g f ∈ (frame st env).2 →
      w = [Semaphore.imageAvailable (st.currentFrame % MAX_FRAMES_IN_FLIGHT)] ∧
      g = [Semaphore.renderFinished (st.currentFrame % MAX_FRAMES_IN_FLIGHT)] ∧
      f = st.currentFrame % MAX_FRAMES_IN_FLIGHT) ∧
    (∀ w i, FrameStep.present w i ∈ (frame st env).2 →
      w =
        [Semaphore.renderFinished (st.currentFrame % MAX_FRAMES_IN_FLIGHT)]) ∧
    (env.presentResult = VkResult.success →
      (frame st env).2.filter FrameStep.isHostBlockingSync =
        [FrameStep.waitFence (st.currentFrame % MAX_FRAMES_IN_FLIGHT)]) := by
  obtain ⟨a, i, p⟩ := env
  rcases hacq with h | h <;> subst h <;> cases p <;>
    simp [frame, FrameStep.isHostBlockingSync]

/-- Witness for `frame_semaphore_discipline` at a concrete state and
environment: the queue submission of slot 1 waits on that slot's
image-available semaphore, signals that slot's render-finished semaphore and
fence, and the only blocking step is the fence wait. -/
theorem frame_semaphore_discipline_witness :
    ((frame { currentFrame := 5 }
        { acquireResult := VkResult.suboptimalKHR, imageIndex := 2,
          presentResult := VkResult.success }).2.filter
      FrameStep.isHostBlockingSync) = [FrameStep.waitFence 1] :=
  (frame_semaphore_discipline { currentFrame := 5 }
    { acquireResult := VkResult.suboptimalKHR, imageIndex := 2,
      presentResult := VkResult.success }
    (Or.inr rfl)).2.2.2.2.2 rfl

/-- Vulkan formats distinguished by the code (vertex attribute formats and
the preferred surface format of `chooseSwapSurfaceFormat`). -/
inductive VkFormat where
  | undefined
  | B8G8R8A8_SRGB
  | B8G8R8A8_UNORM
  | R8G8B8A8_SRGB
  | R32G32_SFLOAT
  | R32G32B32_SFLOAT
  deriving DecidableEq, Repr

/-- `struct Vertex` (src/unnamed/part_000, lines 25-57): a 2-component
position and a 3-component color. The `float` components are embedded as
rationals; every coordinate in the program is exactly representable. -/
structure Vertex where
  pos : ℚ × ℚ
  color : ℚ × ℚ × ℚ
  deriving DecidableEq, Repr

/-- `sizeof(Vertex)`: five 4-byte floats. -/
def sizeofVertex : Nat := 20

/-- `Vertex::getAttributeDescriptions` (src/unnamed/part_000, lines 39-56):
location 0 is the position (`VK_FORMAT_R32G32_SFLOAT`, offset 0) and
location 1 is the color (`VK_FORMAT_R32G32B32_SFLOAT`, offset 8). -/
structure VkVertexInputAttributeDescription where
  binding : Nat
  location : Nat
  format : VkFormat
  offset : Nat
  deriving DecidableEq, Repr

/-- The attribute descriptions returned by
`Vertex::getAttributeDescriptions`. -/
def getAttributeDescriptions : List VkVertexInputAttributeDescription :=
  [{ binding := 0, location := 0, format := VkFormat.R32G32_SFLOAT,
     offset := 0 },
   { binding := 0, location := 1, format := VkFormat.R32G32B32_SFLOAT,
     offset := 8 }]

/-- `struct Mesh` (src/unnamed/part_000, lines 59-67). -/
structure Mesh where
  vertices : List Vertex
  indices : List Nat
  deriving DecidableEq, Repr

/-- `Mesh::numVertices`. -/
def Mesh.numVertices (m : Mesh) : Nat := m.vertices.length

/-- `Mesh::numIndices`. -/
def Mesh.numIndices (m : Mesh) : Nat := m.indices.length

/-- `Mesh::vertexBufferSize`. -/
def Mesh.vertexBufferSize (m : Mesh) : Nat := m.numVertices * sizeofVertex

/-- `Mesh::indexBufferSize` (indices are `uint16_t`, 2 bytes each). -/
def Mesh.indexBufferSize (m : Mesh) : Nat := m.numIndices * 2

/-- The hardcoded quad `mesh` (src/unnamed/part_000, lines 69-73). -/
def mesh : Mesh :=
  { vertices :=
      [{ pos := (-1/2, -1/2), color := (1, 0, 0) },
       { pos := (1/2, -1/2), color := (0, 1, 0) },
       { pos := (1/2, 1/2), color := (0, 0, 1) },
       { pos := (-1/2, 1/2), color := (1, 1, 1) }],
    indices := [0, 1, 2, 2, 3, 0] }

/-- The descriptor types relevant to the pipeline's descriptor set layout. -/
inductive VkDescriptorType where
  | uniformBuffer
  | combinedImageSampler
  | sampledImage
  | samplerOnly
  | storageBuffer
  deriving DecidableEq, Repr

/-- Shader stages named by the code. -/
inductive VkShaderStage where
  | vertexBit
  | fragmentBit
  deriving DecidableEq, Repr

/-- One binding of a descriptor set layout. -/
structure VkDescriptorSetLayoutBinding where
  binding : Nat
  descriptorType : VkDescriptorType
  descriptorCount : Nat
  stageFlags : List VkShaderStage
  deriving DecidableEq, Repr

/-- The bindings of the one descriptor set layout the final version creates
(`createVulkanDescriptorSetLayout`, src/unnamed/part_000, lines 796-815):
a single uniform-buffer binding for the vertex stage. -/
def descriptorSetLayoutBindings : List VkDescriptorSetLayoutBinding :=
  [{ binding := 0, descriptorType := VkDescriptorType.uniformBuffer,
     descriptorCount := 1, stageFlags := [VkShaderStage.vertexBit] }]

/-- Whether a descriptor type makes a texture available for sampling. -/
def isSamplerDescriptor : VkDescriptorType → Bool
  | VkDescriptorType.combinedImageSampler => true
  | VkDescriptorType.sampledImage => true
  | VkDescriptorType.samplerOnly => true
  | _ => false

/-- Whether the pipeline's descriptor set layout exposes any texture to be
sampled when drawing. -/
def usesTextureSampling : Bool :=
  descriptorSetLayoutBindings.any fun b => isSamplerDescriptor b.descriptorType

/-- The commands `recordVulkanCommandBuffer` records
(src/unnamed/part_000, lines 1287-1343). -/
inductive CmdStep where
  | beginCommandBuffer
  | beginRenderPass (imageIndex : Nat)
  | bindPipeline
  | bindVertexBuffers
  | bindIndexBuffer
  | setViewport
  | setScissor
  | drawIndexed (indexCount instanceCount firstIndex vertexOffset
      firstInstance : Nat)
  | endRenderPass
  | endCommandBuffer
  deriving DecidableEq, Repr

/-- `Application::recordVulkanCommandBuffer`
(src/unnamed/part_000, lines 1287-1343) as the ordered list of commands it
records for a given swapchain image index. -/
def recordVulkanCommandBuffer (imageIndex : Nat) : List CmdStep :=
  [CmdStep.beginCommandBuffer,
   CmdStep.beginRenderPass imageIndex,
   CmdStep.bindPipeline,
   CmdStep.bindVertexBuffers,
   CmdStep.bindIndexBuffer,
   CmdStep.setViewport,
   CmdStep.setScissor,
   CmdStep.drawIndexed mesh.numIndices 1 0 0 0,
   CmdStep.endRenderPass,
   CmdStep.endCommandBuffer]

/-- The draw calls recorded in a command list, with their five
`vkCmdDrawIndexed` arguments. -/
def drawCallsOf (cmds : List CmdStep) : List (Nat × Nat × Nat × Nat × Nat) :=
  cmds.filterMap fun c =>
    match c with
    | CmdStep.drawIndexed a b c' d e => some (a, b, c', d, e)
    | _ => none

/-- `glm::radians`, degrees to radians over the reals. -/
noncomputable def glmRadians (deg : ℝ) : ℝ := deg * (Real.pi / 180)

/-- The arguments of a `glm::rotate(glm::mat4(1.0f), angle, axis)` call:
rotation angle in radians and rotation axis. -/
structure GlmRotateCall where
  angle : ℝ
  axis : ℚ × ℚ × ℚ

/-- The rotation `Application::updateUniformBuffer`
(src/unnamed/part_000, lines 1430-1451) writes into the uniform buffer's
model matrix at elapsed time `time` seconds:
`glm::rotate(glm::mat4(1.0f), time * glm::radians(90.0f),
glm::vec3(0.0f, 0.0f, 1.0f))`. -/
noncomputable def uboModelRotation (time : ℝ) : GlmRotateCall :=
  { angle := time * glmRadians 90, axis := (0, 0, 1) }

/-- The Vulkan initialization steps any of the four version snapshots
performs, named after the `createVulkan...` member functions. -/
inductive InitStep where
  | createInstance
  | createDebugMessenger
  | createSurface
  | createPhysicalDevice
  | createLogicalDevice
  | createSwapchain
  | createImageViews
  | createRenderPass
  | createDescriptorSetLayout
  | createGraphicsPipeline
  | createFramebuffers
  | createCommandPool
  | createVertexBuffer
  | createIndexBuffer
  | createFrameRenderResources
  | createDescriptorPool
  | createDescriptorSets
  deriving DecidableEq, Repr

/-- `initVulkan` of version 1 (src/unnamed/part_001, line 38). This version
has no validation-layer support at all. -/
def initVulkan_v1 : List InitStep := [InitStep.createInstance]

/-- `initVulkan` of version 2 (src/src/main.cpp, lines 1034-1040), given the
compile-time `VK_ENABLE_VALIDATION_LAYERS` flag. -/
def initVulkan_v2 (validation : Bool) : List InitStep :=
  InitStep.createInstance ::
    (if validation then [InitStep.createDebugMessenger] else []) ++
      [InitStep.createPhysicalDevice]

/-- `initVulkan` of version 3 (src/src/main.cpp, lines 131-143). -/
def initVulkan_v3 (validation : Bool) : List InitStep :=
  InitStep.createInstance ::
    (if validation then [InitStep.createDebugMessenger] else []) ++
      [InitStep.createSurface,
       InitStep.createPhysicalDevice,
       InitStep.createLogicalDevice,
       InitStep.createSwapchain,
       InitStep.createImageViews,
       InitStep.createRenderPass,
       InitStep.createGraphicsPipeline]

/-- `initVulkan` of version 4, the final version
(src/unnamed/part_000, lines 218-238). -/
def initVulkan_v4 (validation : Bool) : List InitStep :=
  InitStep.createInstance ::
    (if validation then [InitStep.createDebugMessenger] else []) ++
      [InitStep.createSurface,
       InitStep.createPhysicalDevice,
       InitStep.createLogicalDevice,
       InitStep.createSwapchain,
       InitStep.createImageViews,
       InitStep.createRenderPass,
       InitStep.createDescriptorSetLayout,
       InitStep.createGraphicsPipeline,
       InitStep.createFramebuffers,
       InitStep.createCommandPool,
       InitStep.createVertexBuffer,
       InitStep.createIndexBuffer,
       InitStep.createFrameRenderResources,
       InitStep.createDescriptorPool,
       InitStep.createDescriptorSets]

/-- `VK_MAKE_VERSION(major, minor, patch)`. -/
def VK_MAKE_VERSION (major minor patch : Nat) : Nat :=
  major * 2 ^ 22 + minor * 2 ^ 12 + patch

/-- `VK_API_VERSION_1_0`. -/
def VK_API_VERSION_1_0 : Nat := VK_MAKE_VERSION 1 0 0

/-- The fields of `VkApplicationInfo` the code sets
(`setupVulkanApplicationInfo`). -/
structure VkApplicationInfo where
  pApplicationName : String
  applicationVersion : Nat
  pEngineName : String
  engineVersion : Nat
  apiVersion : Nat
  deriving DecidableEq, Repr

/-- `setupVulkanApplicationInfo` of version 1
(src/unnamed/part_001, lines 61-68). -/
def appInfo_v1 : VkApplicationInfo :=
  { pApplicationName := "Hello Triangle",
    applicationVersion := VK_MAKE_VERSION 0 1 0,
    pEngineName := "No Engine",
    engineVersion := VK_MAKE_VERSION 1 0 0,
    apiVersion := VK_API_VERSION_1_0 }

/-- `setupVulkanApplicationInfo` of version 2
(src/src/main.cpp, second class). -/
def appInfo_v2 : VkApplicationInfo :=
  { pApplicationName := "Hello Triangle",
    applicationVersion := VK_MAKE_VERSION 0 1 0,
    pEngineName := "No Engine",
    engineVersion := VK_MAKE_VERSION 1 0 0,
    apiVersion := VK_API_VERSION_1_0 }

/-- `setupVulkanApplicationInfo` of version 3
(src/src/main.cpp, lines 178-185). -/
def appInfo_v3 : VkApplicationInfo :=
  { pApplicationName := "Hello Triangle",
    applicationVersion := VK_MAKE_VERSION 0 1 0,
    pEngineName := "No Engine",
    engineVersion := VK_MAKE_VERSION 1 0 0,
    apiVersion := VK_API_VERSION_1_0 }

/-- `setupVulkanApplicationInfo` of version 4
(src/unnamed/part_000, lines 273-280). -/
def appInfo_v4 : VkApplicationInfo :=
  { pApplicationName := "Hello Triangle",
    applicationVersion := VK_MAKE_VERSION 0 1 0,
    pEngineName := "No Engine",
    engineVersion := VK_MAKE_VERSION 1 0 0,
    apiVersion := VK_API_VERSION_1_0 }

/-- `VK_EXT_DEBUG_UTILS_EXTENSION_NAME`. -/
def VK_EXT_DEBUG_UTILS_EXTENSION_NAME : String := "VK_EXT_debug_utils"

/-- `VK_VALIDATION_LAYERS` (identical in versions 2, 3 and 4). -/
def VK_VALIDATION_LAYERS : List String := ["VK_LAYER_KHRONOS_validation"]

/-- The instance configuration handed to `vkCreateInstance`: application
info, enabled extension names and enabled layer names. -/
structure VkInstanceConfig where
  appInfo : VkApplicationInfo
  enabledExtensions : List String
  enabledLayers : List String
  deriving DecidableEq, Repr

/-- `createVulkanInstance` of version 1 (src/unnamed/part_001, lines 40-80),
as a function of the extension names GLFW requests: the enabled extensions
are exactly the GLFW-required ones and `enabledLayerCount` is 0. -/
def instanceConfig_v1 (glfwExts : List String) : VkInstanceConfig :=
  { appInfo := appInfo_v1, enabledExtensions := glfwExts,
    enabledLayers := [] }

/-- `createVulkanInstance` of version 2 (src/src/main.cpp, second class):
the GLFW-required extensions, plus the debug-utils extension and the
validation layers when validation is enabled. -/
def instanceConfig_v2 (validation : Bool) (glfwExts : List String) :
    VkInstanceConfig :=
  { appInfo := appInfo_v2,
    enabledExtensions :=
      glfwExts ++
        if validation then [VK_EXT_DEBUG_UTILS_EXTENSION_NAME] else [],
    enabledLayers := if validation then VK_VALIDATION_LAYERS else [] }

/-- `createVulkanInstance` of version 3 (src/src/main.cpp, lines 145-213). -/
def instanceConfig_v3 (validation : Bool) (glfwExts : List String) :
    VkInstanceConfig :=
  { appInfo := appInfo_v3,
    enabledExtensions :=
      glfwExts ++
        if validation then [VK_EXT_DEBUG_UTILS_EXTENSION_NAME] else [],
    enabledLayers := if validation then VK_VALIDATION_LAYERS else [] }

/-- `createVulkanInstance` of version 4
(src/unnamed/part_000, lines 240-308). -/
def instanceConfig_v4 (validation : Bool) (glfwExts : List String) :
    VkInstanceConfig :=
  { appInfo := appInfo_v4,
    enabledExtensions :=
      glfwExts ++
        if validation then [VK_EXT_DEBUG_UTILS_EXTENSION_NAME] else [],
    enabledLayers := if validation then VK_VALIDATION_LAYERS else [] }

/-- C5 counterexample: the final version samples no texture when drawing.
Its only descriptor set layout consists of a single uniform-buffer binding —
no sampler, sampled image or combined image sampler exists anywhere in the
pipeline — and the vertex input carries exactly two attributes, the
2-component position and the 3-component color; there is no
texture-coordinate attribute. So the quad is not textured: its vertices
carry color data, not texture data. -/
theorem quad_not_textured :
    usesTextureSampling = false ∧
    descriptorSetLayoutBindings.map
        (fun b => b.descriptorType) = [VkDescriptorType.uniformBuffer] ∧
    getAttributeDescriptions.map (fun a => a.format) =
      [VkFormat.R32G32_SFLOAT, VkFormat.R32G32B32_SFLOAT] ∧
    mesh.vertices.map Vertex.color =
      [(1, 0, 0), (0, 1, 0), (0, 0, 1), (1, 1, 1)] := by
  refine ⟨rfl, rfl, rfl, ?_⟩
  simp [mesh]

/-- C5 (amended): the final version renders a rotating vertex-colored quad
driven by per-frame uniform buffers: each frame writes a uniform buffer
object whose model matrix rotates the quad about the z-axis at 90 degrees
(π/2 radians) per elapsed second, and the quad's vertices carry per-vertex
color data (location-1 attribute, `VK_FORMAT_R32G32B32_SFLOAT`) that is
interpolated when drawing. -/
theorem rotating_colored_quad (t : ℝ) :
    (uboModelRotation t).axis = (0, 0, 1) ∧
    (uboModelRotation t).angle = t * (Real.pi / 2) ∧
    (uboModelRotation (t + 1)).angle - (uboModelRotation t).angle =
      glmRadians 90 ∧
    glmRadians 90 = Real.pi / 2 ∧
    mesh.vertices.map Vertex.color =
      [(1, 0, 0), (0, 1, 0), (0, 0, 1), (1, 1, 1)] ∧
    getAttributeDescriptions.map (fun a => a.format) =
      [VkFormat.R32G32_SFLOAT, VkFormat.R32G32B32_SFLOAT] := by
  refine ⟨rfl, ?_, ?_, ?_, by simp [mesh], rfl⟩
  · unfold uboModelRotation glmRadians
    ring
  · unfold uboModelRotation glmRadians
    ring
  · unfold glmRadians
    ring

/-- C6: the rendered geometry is the single hardcoded quad constant `mesh`:
exactly 4 vertices and 6 indices forming the two triangles `[0, 1, 2]` and
`[2, 3, 0]`, which share the edge `{0, 2}`; every index is in range; every
recorded command buffer contains exactly one draw, an indexed draw of
exactly `mesh.numIndices() = 6` indices (1 instance, offsets 0); and the
vertex and index buffers are each created once during `initVulkan`, never
again (the sizes uploaded are the constant mesh's 80-byte vertex and
12-byte index data). -/
theorem single_fixed_quad (imageIndex : Nat) (validation : Bool) :
    mesh.numVertices = 4 ∧
    mesh.numIndices = 6 ∧
    mesh.indices = [0, 1, 2, 2, 3, 0] ∧
    (mesh.indices.all fun i => i < mesh.numVertices) = true ∧
    (mesh.indices.take 3).toFinset ∩ (mesh.indices.drop 3).toFinset =
      {0, 2} ∧
    drawCallsOf (recordVulkanCommandBuffer imageIndex) =
      [(mesh.numIndices, 1, 0, 0, 0)] ∧
    (initVulkan_v4 validation).count InitStep.createVertexBuffer = 1 ∧
    (initVulkan_v4 validation).count InitStep.createIndexBuffer = 1 ∧
    mesh.vertexBufferSize = 80 ∧
    mesh.indexBufferSize = 12 := by
  refine ⟨rfl, rfl, rfl, by decide, by decide, ?_, ?_, ?_, rfl, rfl⟩
  · simp [drawCallsOf, recordVulkanCommandBuffer]
  · cases validation <;> decide
  · cases validation <;> decide

/-- C7: each later snapshot preserves the previous snapshot's initialization:
for every adjacent pair of versions the earlier `initVulkan` step sequence is
a subsequence of the later one (the new milestone's steps are only inserted,
never reordering the old ones), and with validation layers disabled all four
versions hand `vkCreateInstance` the same configuration — identical
application info, enabled extensions exactly the GLFW-required ones, and
zero enabled layers. -/
theorem versions_refine (validation : Bool) (glfwExts : List String) :
    List.Sublist initVulkan_v1 (initVulkan_v2 validation) ∧
    List.Sublist (initVulkan_v2 validation) (initVulkan_v3 validation) ∧
    List.Sublist (initVulkan_v3 validation) (initVulkan_v4 validation) ∧
    instanceConfig_v2 false glfwExts = instanceConfig_v1 glfwExts ∧
    instanceConfig_v3 false glfwExts = instanceConfig_v1 glfwExts ∧
    instanceConfig_v4 false glfwExts = instanceConfig_v1 glfwExts ∧
    (instanceConfig_v1 glfwExts).enabledExtensions = glfwExts ∧
    (instanceConfig_v1 glfwExts).enabledLayers = [] := by
  refine ⟨?_, ?_, ?_, ?_, ?_, ?_, rfl, rfl⟩ <;> cases validation <;>
    simp [initVulkan_v1, initVulkan_v2, initVulkan_v3, initVulkan_v4,
      instanceConfig_v1, instanceConfig_v2, instanceConfig_v3,
      instanceConfig_v4, appInfo_v1, appInfo_v2, appInfo_v3, appInfo_v4]

/-- Color spaces distinguished by the code. -/
inductive VkColorSpaceKHR where
  | srgbNonlinearKHR
  | displayP3NonlinearEXT
  | hdr10St2084EXT
  deriving DecidableEq, Repr

/-- Present modes. -/
inductive VkPresentModeKHR where
  | immediateKHR
  | mailboxKHR
  | fifoKHR
  | fifoRelaxedKHR
  deriving DecidableEq, Repr

/-- `VkSurfaceFormatKHR`. -/
structure VkSurfaceFormatKHR where
  format : VkFormat
  colorSpace : VkColorSpaceKHR
  deriving DecidableEq, Repr

/-- The condition of the loop body of
`VkSwapChainSupportDetails::chooseSwapSurfaceFormat`
(src/unnamed/part_000, lines 123-132). -/
def isPreferredSurfaceFormat (f : VkSurfaceFormatKHR) : Bool :=
  f.format == VkFormat.B8G8R8A8_SRGB &&
    f.colorSpace == VkColorSpaceKHR.srgbNonlinearKHR

/-- The `for` loop of `chooseSwapSurfaceFormat`: return the first surface
format satisfying the preference test, if any. -/
def chooseSwapSurfaceFormatLoop :
    List VkSurfaceFormatKHR → Option VkSurfaceFormatKHR
  | [] => none
  | f :: rest =>
    if isPreferredSurfaceFormat f then some f
    else chooseSwapSurfaceFormatLoop rest

/-- `VkSwapChainSupportDetails::chooseSwapSurfaceFormat`
(src/unnamed/part_000, lines 123-132; identical in src/src/main.cpp,
lines 80-89): the loop, falling back to `formats[0]`. The out-of-bounds
access `formats[0]` on an empty list is modelled as `none`. -/
def chooseSwapSurfaceFormat (formats : List VkSurfaceFormatKHR) :
    Option VkSurfaceFormatKHR :=
  match chooseSwapSurfaceFormatLoop formats with
  | some f => some f
  | none => formats.head?

/-- `VkSwapChainSupportDetails::isOk`
(src/unnamed/part_000, line 121): both the format list and the present-mode
list queried for the device are non-empty. Device suitability
(`isVulkanPhysicalDeviceSuitable` via `checkSupportsSwapChain`) requires it. -/
def swapChainSupportIsOk (formats : List VkSurfaceFormatKHR)
    (presentModes : List VkPresentModeKHR) : Bool :=
  !formats.isEmpty && !presentModes.isEmpty

/-- The loop of `chooseSwapSurfaceFormat` is `List.find?` of the preference
test: it returns the first matching entry. -/
theorem chooseSwapSurfaceFormatLoop_eq_find?
    (formats : List VkSurfaceFormatKHR) :
    chooseSwapSurfaceFormatLoop formats =
      formats.find? isPreferredSurfaceFormat := by
  induction formats with
  | nil => rfl
  | cons f rest ih =>
    by_cases h : isPreferredSurfaceFormat f = true <;>
      simp [chooseSwapSurfaceFormatLoop, List.find?_cons, h, ih]

/-- C9: for every non-empty format list, `chooseSwapSurfaceFormat` returns
the first entry whose format is `VK_FORMAT_B8G8R8A8_SRGB` with color space
`VK_COLOR_SPACE_SRGB_NONLINEAR_KHR` and, when no such entry exists, the
first element of the list; and the non-emptiness precondition holds whenever
the device passed the `isOk` suitability check, which requires a non-empty
format list. -/
theorem chooseSwapSurfaceFormat_spec (formats : List VkSurfaceFormatKHR)
    (presentModes : List VkPresentModeKHR) :
    (∀ h : formats ≠ [],
      chooseSwapSurfaceFormat formats =
        some ((formats.find? isPreferredSurfaceFormat).getD
          (formats.head h)) ∧
      (∀ f, formats.find? isPreferredSurfaceFormat = some f →
        isPreferredSurfaceFormat f = true ∧
        ∀ g ∈ formats.takeWhile (fun x => !isPreferredSurfaceFormat x),
          g ≠ f)) ∧
    (swapChainSupportIsOk formats presentModes = true → formats ≠ []) := by
  constructor
  · intro h
    constructor
    · unfold chooseSwapSurfaceFormat
      rw [chooseSwapSurfaceFormatLoop_eq_find?]
      cases hf : formats.find? isPreferredSurfaceFormat with
      | some f => simp
      | none => simp [List.head?_eq_head h]
    · intro f hf
      refine ⟨List.find?_some hf, ?_⟩
      intro g hg hgf
      have := List.mem_takeWhile_imp hg
      rw [hgf] at this
      simp [List.find?_some hf] at this
  · intro hok
    simp [swapChainSupportIsOk] at hok
    exact List.ne_nil_of_length_pos (by
      cases formats with
      | nil => simp at hok
      | cons a l => simp)

/-- Witness for `chooseSwapSurfaceFormat_spec`: on a two-element list whose
second entry is the preferred one, the choice is that second entry, and the
`isOk` check implies non-emptiness. -/
theorem chooseSwapSurfaceFormat_spec_witness :
    chooseSwapSurfaceFormat
        [{ format := VkFormat.B8G8R8A8_UNORM,
           colorSpace := VkColorSpaceKHR.srgbNonlinearKHR },
         { format := VkFormat.B8G8R8A8_SRGB,
           colorSpace := VkColorSpaceKHR.srgbNonlinearKHR }] =
      some { format := VkFormat.B8G8R8A8_SRGB,
             colorSpace := VkColorSpaceKHR.srgbNonlinearKHR } := by
  have h :=
    ((chooseSwapSurfaceFormat_spec
      [{ format := VkFormat.B8G8R8A8_UNORM,
         colorSpace := VkColorSpaceKHR.srgbNonlinearKHR },
       { format := VkFormat.B8G8R8A8_SRGB,
         colorSpace := VkColorSpaceKHR.srgbNonlinearKHR }]
      [VkPresentModeKHR.fifoKHR]).1 (by decide)).1
  rw [h]
  decide

/-- The host-side steps of `Application::recreateVulkanSwapchain`
(src/unnamed/part_000, lines 1453-1474) and of the
`cleanupVulkanSwapchain` it calls (lines 1521-1531). -/
inductive RecreateStep where
  | pollFramebufferSize (width height : Nat)
  | waitEvents
  | deviceWaitIdle
  | destroyFramebuffers
  | destroyImageViews
  | destroySwapchain
  | createSwapchain
  | createImageViews
  | createFramebuffers
  deriving DecidableEq, Repr

/-- The `while (width == 0 || height == 0)` loop of
`recreateVulkanSwapchain`, reading the framebuffer size anew each iteration
and waiting for window events. `sizes k` is the value the `k`-th
`glfwGetFramebufferSize` call reads; `fuel` bounds the number of iterations
(the loop diverges if the framebuffer never becomes non-degenerate). -/
def recreateWaitLoop (sizes : Nat → Nat × Nat) (w h k : Nat) :
    Nat → Option ((Nat × Nat) × List RecreateStep)
  | 0 => if w = 0 ∨ h = 0 then none else some ((w, h), [])
  | fuel + 1 =>
    if w = 0 ∨ h = 0 then
      match recreateWaitLoop sizes (sizes k).1 (sizes k).2 (k + 1) fuel with
      | some (dims, tr) =>
        some (dims,
          RecreateStep.pollFramebufferSize (sizes k).1 (sizes k).2 ::
            RecreateStep.waitEvents :: tr)
      | none => none
    else some ((w, h), [])

/-- `Application::recreateVulkanSwapchain`
(src/unnamed/part_000, lines 1453-1474): poll the framebuffer size, wait in
a loop until both dimensions are nonzero, then wait for the device to become
idle, destroy the old framebuffers, image views and swapchain (in the order
of `cleanupVulkanSwapchain`) and create the new swapchain, image views and
framebuffers. Returns the accepted dimensions and the step trace, or `none`
when `fuel` iterations never see a nonzero size. -/
def recreateVulkanSwapchain (sizes : Nat → Nat × Nat) (fuel : Nat) :
    Option ((Nat × Nat) × List RecreateStep) :=
  match recreateWaitLoop sizes (sizes 0).1 (sizes 0).2 1 fuel with
  | some (dims, tr) =>
    some (dims,
      RecreateStep.pollFramebufferSize (sizes 0).1 (sizes 0).2 :: tr ++
        [RecreateStep.deviceWaitIdle,
         RecreateStep.destroyFramebuffers,
         RecreateStep.destroyImageViews,
         RecreateStep.destroySwapchain,
         RecreateStep.createSwapchain,
         RecreateStep.createImageViews,
         RecreateStep.createFramebuffers])
  | none => none

/-- Steps the waiting prefix of the recreation may contain. -/
def isWaitStep : RecreateStep → Bool
  | RecreateStep.pollFramebufferSize _ _ => true
  | RecreateStep.waitEvents => true
  | _ => false

theorem recreateWaitLoop_spec (sizes : Nat → Nat × Nat) :
    ∀ fuel w h k dims tr,
      recreateWaitLoop sizes w h k fuel = some (dims, tr) →
      dims.1 ≠ 0 ∧ dims.2 ≠ 0 ∧ (tr.all isWaitStep) = true := by
  intro fuel
  induction fuel with
  | zero =>
    intro w h k dims tr hsome
    unfold recreateWaitLoop at hsome
    by_cases hz : w = 0 ∨ h = 0
    · simp [hz] at hsome
    · push_neg at hz
      simp [hz] at hsome
      obtain ⟨hd, ht⟩ := hsome
      subst ht
      simp [← hd, hz.1, hz.2]
  | succ n ih =>
    intro w h k dims tr hsome
    unfold recreateWaitLoop at hsome
    by_cases hz : w = 0 ∨ h = 0
    · rw [if_pos hz] at hsome
      cases hrec : recreateWaitLoop sizes (sizes k).1 (sizes k).2 (k + 1) n with
      | none => rw [hrec] at hsome; exact absurd hsome (by simp)
      | some p =>
        obtain ⟨dims', tr'⟩ := p
        rw [hrec] at hsome
        simp only [Option.some.injEq, Prod.mk.injEq] at hsome
        obtain ⟨hd, ht⟩ := hsome
        obtain ⟨h1, h2, h3⟩ :=
          ih (sizes k).1 (sizes k).2 (k + 1) dims' tr' hrec
        subst hd
        subst ht
        refine ⟨h1, h2, ?_⟩
        simp [isWaitStep, h3]
    · push_neg at hz
      simp [hz] at hsome
      obtain ⟨hd, ht⟩ := hsome
      subst ht
      simp [← hd, hz.1, hz.2]

/-- C10: whenever `recreateVulkanSwapchain` completes, the framebuffer
dimensions it accepted are both nonzero — the wait loop (polling the size
and waiting for window events, and nothing else) ran until that held — and
only then does the trace continue with, in order: wait for the device to
become idle, destroy the old framebuffers, image views and swapchain, and
create the new swapchain, image views and framebuffers. So the swapchain is
never recreated while the framebuffer has a zero dimension, and the old
resources are destroyed after the device is idle and before the new ones
are created. -/
theorem recreate_waits_for_nonzero_size (sizes : Nat → Nat × Nat)
    (fuel : Nat) (dims : Nat × Nat) (tr : List RecreateStep)
    (hsome : recreateVulkanSwapchain sizes fuel = some (dims, tr)) :
    dims.1 ≠ 0 ∧ dims.2 ≠ 0 ∧
    ∃ pre, (pre.all isWaitStep) = true ∧
      tr = pre ++
        [RecreateStep.deviceWaitIdle,
         RecreateStep.destroyFramebuffers,
         RecreateStep.destroyImageViews,
         RecreateStep.destroySwapchain,
         RecreateStep.createSwapchain,
         RecreateStep.createImageViews,
         RecreateStep.createFramebuffers] := by
  unfold recreateVulkanSwapchain at hsome
  cases hrec : recreateWaitLoop sizes (sizes 0).1 (sizes 0).2 1 fuel with
  | none => rw [hrec] at hsome; exact absurd hsome (by simp)
  | some p =>
    obtain ⟨dims', tr'⟩ := p
    rw [hrec] at hsome
    simp only [Option.some.injEq, Prod.mk.injEq] at hsome
    obtain ⟨hd, ht⟩ := hsome
    obtain ⟨h1, h2, h3⟩ :=
      recreateWaitLoop_spec sizes fuel (sizes 0).1 (sizes 0).2 1 dims' tr'
        hrec
    subst hd
    subst ht
    refine ⟨h1, h2,
      RecreateStep.pollFramebufferSize (sizes 0).1 (sizes 0).2 :: tr',
      ?_, by simp⟩
    simp [isWaitStep, h3]

/-- Witness for `recreate_waits_for_nonzero_size`: with a window whose
framebuffer is 800 × 600 from the start, recreation accepts those nonzero
dimensions and performs the recreation steps after one size poll. -/
theorem recreate_waits_for_nonzero_size_witness :
    (800 : Nat) ≠ 0 ∧ (600 : Nat) ≠ 0 ∧
    ∃ pre, (pre.all isWaitStep) = true ∧
      (RecreateStep.pollFramebufferSize 800 600 ::
        [RecreateStep.deviceWaitIdle,
         RecreateStep.destroyFramebuffers,
         RecreateStep.destroyImageViews,
         RecreateStep.destroySwapchain,
         RecreateStep.createSwapchain,
         RecreateStep.createImageViews,
         RecreateStep.createFramebuffers] : List RecreateStep) = pre ++
        [RecreateStep.deviceWaitIdle,
         RecreateStep.destroyFramebuffers,
         RecreateStep.destroyImageViews,
         RecreateStep.destroySwapchain,
         RecreateStep.createSwapchain,
         RecreateStep.createImageViews,
         RecreateStep.createFramebuffers] :=
  recreate_waits_for_nonzero_size (fun _ => (800, 600)) 0 (800, 600)
    (RecreateStep.pollFramebufferSize 800 600 ::
      [RecreateStep.deviceWaitIdle,
       RecreateStep.destroyFramebuffers,
       RecreateStep.destroyImageViews,
       RecreateStep.destroySwapchain,
       RecreateStep.createSwapchain,
       RecreateStep.createImageViews,
       RecreateStep.createFramebuffers]) rfl

end VkPlayground
